import Mathlib

/-!
Verification development for the dashboard-optimization backend.

The Python source is shallowly embedded:
* a `DashboardItem` models one entry of the per-case `items.json` array;
  string fields read with `dict.get(key, '')` are modelled as plain `String`
  with `""` standing for an absent key (the code never distinguishes the
  two for those fields), while `source_file` and `size`, whose read sites
  use a different default (`'unknown'`), are modelled as `Option String`;
* a component's `value` is stored already stringified (the code only ever
  uses `str(value)` or compares it for equality/truthiness);
* the per-case file system state (`items.json` plus `optimization_log.json`)
  is a `CaseFS`; an absent `items.json` is `items = none`;
* `datetime.now()` results are passed in as explicit `now`/`nowFmt`
  arguments;
* every handler is a total function `CaseFS → CaseFS × FnResult`, mirroring
  the Python functions in `ai_control_functions.py`, and the control loop of
  `run_dashboard_optimization` in `main.py` consumes an oracle
  `Nat → List ControlCall` giving the tool calls of each iteration.
-/

/-- The polymorphic `component` payload of a dashboard item.  Fields read in
the source with default `''` are plain strings with `""` for absence. -/
structure Component where
  type : String
  title : String
  label : String
  value : String
  size : Option String
  deriving Repr, DecidableEq

/-- One entry of a case's `items.json` array. -/
structure DashboardItem where
  id : String
  component : Component
  source_file : Option String
  source_item_ids : List String
  created_at : String
  analysis_type : String
  metadata : List (String × String)
  deriving Repr, DecidableEq

/-- Per-run optimization log (`optimization_log.json`), single slot. -/
structure OptimizationLog where
  case_name : String
  completed_at : String
  summary : String
  final_item_count : Int
  optimization_completed : Bool
  deriving Repr, DecidableEq

/-- The per-case slice of the file system the handlers touch:
`items.json` (absent file = `none`) and `optimization_log.json`. -/
structure CaseFS where
  items : Option (List DashboardItem)
  optLog : Option OptimizationLog
  deriving Repr, DecidableEq

/-- Python `dict[k] = v` on a string-valued dict with unique keys:
replace the value in place if the key exists, else append. -/
def dictSet : List (String × String) → String → String → List (String × String)
  | [], k, v => [(k, v)]
  | p :: rest, k, v =>
    if p.1 = k then (k, v) :: rest else p :: dictSet rest k v

/-- Python `d.get(k)` on a string-valued dict. -/
def dictGet : List (String × String) → String → Option String
  | [], _ => none
  | p :: rest, k => if p.1 = k then some p.2 else dictGet rest k

/-- `component.get('title', '') or component.get('label', '')`:
the title when non-empty (truthy), otherwise the label. -/
def titleOrLabel (c : Component) : String :=
  if c.title ≠ "" then c.title else c.label

/-!  ## Deduplication pre-pass (`run_dashboard_optimization`, main.py)  -/

/-- The dedup key built in the pre-pass of `run_dashboard_optimization`:
`"{type}|{title}|{value}"` for `metric_card`, `"{type}|{title}"` otherwise,
where `title` is title-or-label and `value` is the stringified value. -/
def dedupKey (it : DashboardItem) : String :=
  let t := it.component.type
  let title := titleOrLabel it.component
  if t = "metric_card" then
    t ++ "|" ++ title ++ "|" ++ it.component.value
  else
    t ++ "|" ++ title

/-- The pre-pass loop: walk the items in order keeping the first occurrence
of each dedup key; `seen` is the `seen_combinations` set.  Returns the kept
items and `duplicates_removed`. -/
def dedupPass : List DashboardItem → List String → List DashboardItem × Nat
  | [], _ => ([], 0)
  | it :: rest, seen =>
    if dedupKey it ∈ seen then
      ((dedupPass rest seen).1, (dedupPass rest seen).2 + 1)
    else
      (it :: (dedupPass rest (dedupKey it :: seen)).1,
        (dedupPass rest (dedupKey it :: seen)).2)

/-- The pre-pass as invoked by `run_dashboard_optimization`: empty `seen`. -/
def prePass (items : List DashboardItem) : List DashboardItem × Nat :=
  dedupPass items []

/-!  ## Handler results (`ai_control_functions.py`)  -/

/-- One entry of `get_item_statistics`'s `creation_timeline`. -/
structure TimelineEntry where
  id : String
  created_at : String
  type : String
  deriving Repr, DecidableEq

/-- The `statistics` object of `get_item_statistics`. -/
structure Statistics where
  total_items : Nat
  by_type : List (String × Nat)
  by_source_file : List (String × Nat)
  by_size : List (String × Nat)
  creation_timeline : List TimelineEntry
  deriving Repr, DecidableEq

/-- The success payloads of the seven handlers.  Numeric rendering inside
message strings (counts, the formatted overlap in the title factor) is
elided; the structured fields carry the data the messages report. -/
inductive Payload where
  | listed (items : List DashboardItem) (count : Nat) (message : String)
  | deleted (message : String) (remaining_items : Nat)
  | updated (message : String) (updated_component : Component)
  | consolidated (message new_item_id consolidation_reason : String)
  | similarity (similarity_score : ℚ) (similarity_factors : List String)
      (recommendation : String) (item1_summary item2_summary : String × String × String)
  | stats (statistics : Statistics)
  | completed (message summary : String) (final_item_count : Int)
      (optimization_completed : Bool)
  deriving DecidableEq

/-- A handler/dispatcher result: `ok` is a `{"success": true, ...}` dict,
`fail` a `{"success": false, "error": ...}` dict, and `unknownErr` the bare
`{"error": ...}` dict the dispatcher returns for an unknown name. -/
inductive FnResult where
  | ok (payload : Payload)
  | fail (error : String)
  | unknownErr (error : String)
  deriving DecidableEq

/-- `result.get("success")` truthiness as used by the control loop. -/
def FnResult.success : FnResult → Bool
  | .ok _ => true
  | .fail _ => false
  | .unknownErr _ => false

/-!  ## The seven handlers  -/

/-- `list_dashboard_items`: absent file yields an empty success list. -/
def list_dashboard_items (fs : CaseFS) (case_name : String) : CaseFS × FnResult :=
  match fs.items with
  | none =>
    (fs, .ok (.listed [] 0 ("No dashboard items found for case " ++ case_name)))
  | some items =>
    (fs, .ok (.listed items items.length
      ("Retrieved dashboard items for case " ++ case_name)))

/-- `delete_dashboard_item`: filter out every item whose id equals
`item_id`; not-found is detected by the length staying equal. -/
def delete_dashboard_item (fs : CaseFS) (case_name item_id reason : String) :
    CaseFS × FnResult :=
  match fs.items with
  | none => (fs, .fail ("No dashboard items file found for case " ++ case_name))
  | some items =>
    let remaining := items.filter (fun it => it.id ≠ item_id)
    if remaining.length = items.length then
      (fs, .fail ("Item with ID " ++ item_id ++ " not found"))
    else
      ({ fs with items := some remaining },
        .ok (.deleted ("Deleted item " ++ item_id ++ ". Reason: " ++ reason)
          remaining.length))

/-- The mutation applied to the matched item by `update_dashboard_item`:
replace its `component` wholesale and stamp `metadata['last_updated']`
and `metadata['update_reason']`; all other fields are untouched. -/
def stampItem (it : DashboardItem) (updated_component : Component)
    (update_reason now : String) : DashboardItem :=
  { it with
    component := updated_component
    metadata := dictSet (dictSet it.metadata "last_updated" now)
      "update_reason" update_reason }

/-- The in-place mutation of `update_dashboard_item`'s `for`/`break` loop:
stamp the first item with the given id; `none` when no item matches. -/
def updateFirst (item_id : String) (updated_component : Component)
    (update_reason now : String) : List DashboardItem → Option (List DashboardItem)
  | [] => none
  | it :: rest =>
    if it.id = item_id then
      some (stampItem it updated_component update_reason now :: rest)
    else
      (updateFirst item_id updated_component update_reason now rest).map
        (fun r => it :: r)

/-- `update_dashboard_item`. -/
def update_dashboard_item (fs : CaseFS) (case_name item_id : String)
    (updated_component : Component) (update_reason now : String) :
    CaseFS × FnResult :=
  match fs.items with
  | none => (fs, .fail ("No dashboard items file found for case " ++ case_name))
  | some items =>
    match updateFirst item_id updated_component update_reason now items with
    | none => (fs, .fail ("Item with ID " ++ item_id ++ " not found"))
    | some items2 =>
      ({ fs with items := some items2 },
        .ok (.updated ("Updated item " ++ item_id ++ ". Reason: " ++ update_reason)
          updated_component))

/-- The new item built by `create_consolidated_item`; `nowFmt` is
`datetime.now().strftime('%Y%m%d_%H%M%S')` and `now` the ISO timestamp. -/
def consolidatedItem (case_name : String) (component : Component)
    (source_item_ids : List String) (consolidation_reason now nowFmt : String) :
    DashboardItem :=
  { id := case_name ++ "_consolidated_" ++ nowFmt
    component := component
    source_file := none
    source_item_ids := source_item_ids
    created_at := now
    analysis_type := "consolidated_analysis"
    metadata := [("component_type", component.type),
      ("consolidation_reason", consolidation_reason),
      ("source_items_count", toString source_item_ids.length),
      ("created_by", "control_agent")] }

/-- `create_consolidated_item`: load (or default to empty) the item list,
append the new item, write back. -/
def create_consolidated_item (fs : CaseFS) (case_name : String)
    (component : Component) (source_item_ids : List String)
    (consolidation_reason now nowFmt : String) : CaseFS × FnResult :=
  let items := fs.items.getD []
  let newItem := consolidatedItem case_name component source_item_ids
    consolidation_reason now nowFmt
  ({ fs with items := some (items ++ [newItem]) },
    .ok (.consolidated "Created consolidated item from source items"
      newItem.id consolidation_reason))

/-!  ## Similarity scoring (`analyze_item_similarity`)  -/

/-- `s.lower()`: character-wise lowering (ASCII, as `Char.toLower`). -/
def strLower (s : String) : String := String.mk (s.data.map Char.toLower)

/-- Split a character list at every whitespace character, keeping empty
pieces (they are filtered away afterwards, matching Python `str.split()`).
Structural recursion so that concrete inputs evaluate in the kernel. -/
def splitWSAux : List Char → List Char → List (List Char)
  | [], acc => [acc.reverse]
  | c :: cs, acc =>
    if c.isWhitespace then acc.reverse :: splitWSAux cs []
    else splitWSAux cs (c :: acc)

/-- `set(s.lower().split())`: lower-case, split on whitespace, drop empty
pieces, and deduplicate (set semantics, first occurrence kept — only
cardinalities of this list are ever used). -/
def titleWords (s : String) : List String :=
  (((splitWSAux (strLower s).data []).map (fun cs => String.mk cs)).filter
    (fun w => w ≠ "")).dedup

/-- `len(a.intersection(b))` for deduplicated word lists. -/
def interCard (a b : List String) : Nat :=
  (a.filter (fun w => w ∈ b)).length

/-- `len(a.union(b))` for deduplicated word lists. -/
def unionCard (a b : List String) : Nat :=
  (a ++ b.filter (fun w => w ∉ a)).length

/-- The Jaccard word overlap `len(inter) / len(union)` as a rational. -/
def wordOverlap (a b : List String) : ℚ :=
  (interCard a b : ℚ) / (unionCard a b : ℚ)

/-- The score/factors accumulation of `analyze_item_similarity`, in the
order of the source: type, title overlap, source file, metric value. -/
def similarityParts (item1 item2 : DashboardItem) : ℚ × List String :=
  let comp1 := item1.component
  let comp2 := item2.component
  let acc1 : ℚ × List String :=
    if comp1.type = comp2.type then (30, ["Same component type"]) else (0, [])
  let w1 := titleWords (titleOrLabel comp1)
  let w2 := titleWords (titleOrLabel comp2)
  let acc2 : ℚ × List String :=
    if w1 ≠ [] ∧ w2 ≠ [] then
      let ov := wordOverlap w1 w2
      (acc1.1 + ov * 40,
        if ov > 3/10 then acc1.2 ++ ["Title word overlap"] else acc1.2)
    else acc1
  let acc3 : ℚ × List String :=
    if item1.source_file.getD "" = item2.source_file.getD "" ∧
        item1.source_file.getD "" ≠ "" then
      (acc2.1 + 20, acc2.2 ++ ["Same source file"])
    else acc2
  if comp1.type = "metric_card" ∧ comp2.type = "metric_card" ∧
      comp1.value = comp2.value ∧ comp1.value ≠ "" then
    (acc3.1 + 10, acc3.2 ++ ["Same metric value"])
  else acc3

/-- Python `min(a, b)` on rationals (kept executable for evaluation). -/
def ratMin (a b : ℚ) : ℚ := if a ≤ b then a else b

/-- The recommendation computed from the raw (unclamped) score. -/
def recommend (s : ℚ) : String :=
  if s > 70 then "merge" else if s < 30 then "keep_separate" else "review"

/-- `next((item for item in items if item.get('id') == item_id), None)`. -/
def findItem (items : List DashboardItem) (item_id : String) :
    Option DashboardItem :=
  items.find? (fun it => it.id = item_id)

/-- The `itemN_summary` triple `(id, type, title-or-label-or-Untitled)`. -/
def itemSummary (item_id : String) (c : Component) : String × String × String :=
  (item_id, c.type,
    if c.title ≠ "" then c.title else if c.label ≠ "" then c.label else "Untitled")

/-- `analyze_item_similarity`. -/
def analyze_item_similarity (fs : CaseFS) (case_name item_id_1 item_id_2 : String) :
    CaseFS × FnResult :=
  match fs.items with
  | none => (fs, .fail ("No dashboard items file found for case " ++ case_name))
  | some items =>
    match findItem items item_id_1, findItem items item_id_2 with
    | some item1, some item2 =>
      let p := similarityParts item1 item2
      (fs, .ok (.similarity (ratMin p.1 100) p.2 (recommend p.1)
        (itemSummary item_id_1 item1.component)
        (itemSummary item_id_2 item2.component)))
    | _, _ => (fs, .fail "One or both items not found")

/-!  ## Statistics and completion  -/

/-- `d[k] = d.get(k, 0) + 1` on a counting dict. -/
def bumpCount (m : List (String × Nat)) (k : String) : List (String × Nat) :=
  if m.any (fun p => p.1 = k) then
    m.map (fun p => if p.1 = k then (p.1, p.2 + 1) else p)
  else m ++ [(k, 1)]

/-- Accumulate one item into the statistics (the body of the `for` loop of
`get_item_statistics`). -/
def statStep (st : Statistics) (it : DashboardItem) : Statistics :=
  { st with
    by_type := bumpCount st.by_type it.component.type
    by_source_file := bumpCount st.by_source_file (it.source_file.getD "unknown")
    by_size := bumpCount st.by_size (it.component.size.getD "unknown")
    creation_timeline :=
      if it.created_at ≠ "" then
        st.creation_timeline ++ [⟨it.id, it.created_at, it.component.type⟩]
      else st.creation_timeline }

/-- The statistics of an item list, timeline sorted by `created_at`. -/
def statsOf (items : List DashboardItem) : Statistics :=
  let folded := items.foldl statStep ⟨items.length, [], [], [], []⟩
  { folded with
    creation_timeline := folded.creation_timeline.mergeSort
      (fun a b => decide (a.created_at ≤ b.created_at)) }

/-- `get_item_statistics`: absent file yields empty statistics. -/
def get_item_statistics (fs : CaseFS) (_case_name : String) : CaseFS × FnResult :=
  match fs.items with
  | none => (fs, .ok (.stats ⟨0, [], [], [], []⟩))
  | some items => (fs, .ok (.stats (statsOf items)))

/-- `mark_optimization_complete`: overwrite the per-case optimization log
and report success. -/
def mark_optimization_complete (fs : CaseFS) (case_name summary : String)
    (final_item_count : Int) (now : String) : CaseFS × FnResult :=
  let log : OptimizationLog :=
    ⟨case_name, now, summary, final_item_count, true⟩
  ({ fs with optLog := some log },
    .ok (.completed ("Optimization completed for case " ++ case_name)
      summary final_item_count true))

/-!  ## Dispatcher (`execute_control_function`) and control loop  -/

/-- A tool call as dispatched by `execute_control_function`: one typed
constructor per known function name, and `unknownCall` for every other
name.  (A known name with schema-invalid arguments is not representable in
the typed constructors; its Python outcome, a caught exception turned into
a bare error dict, coincides with `unknownCall`'s handling.) -/
inductive ControlCall where
  | listItems (case_name : String)
  | deleteItem (case_name item_id reason : String)
  | updateItem (case_name item_id : String) (updated_component : Component)
      (update_reason : String)
  | createConsolidated (case_name : String) (component : Component)
      (source_item_ids : List String) (consolidation_reason : String)
  | analyzeSimilarity (case_name item_id_1 item_id_2 : String)
  | getStatistics (case_name : String)
  | markComplete (case_name summary : String) (final_item_count : Int)
  | unknownCall (name : String)
  deriving DecidableEq

/-- The `function_name` string of a tool call. -/
def ControlCall.functionName : ControlCall → String
  | .listItems _ => "list_dashboard_items"
  | .deleteItem _ _ _ => "delete_dashboard_item"
  | .updateItem _ _ _ _ => "update_dashboard_item"
  | .createConsolidated _ _ _ _ => "create_consolidated_item"
  | .analyzeSimilarity _ _ _ => "analyze_item_similarity"
  | .getStatistics _ => "get_item_statistics"
  | .markComplete _ _ _ => "mark_optimization_complete"
  | .unknownCall n => n

/-- `execute_control_function`: total dispatch, never raising; an unknown
name yields the bare `{"error": "Unknown function: ..."}` dict. -/
def execute_control_function (fs : CaseFS) (now nowFmt : String) :
    ControlCall → CaseFS × FnResult
  | .listItems c => list_dashboard_items fs c
  | .deleteItem c i r => delete_dashboard_item fs c i r
  | .updateItem c i comp r => update_dashboard_item fs c i comp r now
  | .createConsolidated c comp ids r =>
    create_consolidated_item fs c comp ids r now nowFmt
  | .analyzeSimilarity c i j => analyze_item_similarity fs c i j
  | .getStatistics c => get_item_statistics fs c
  | .markComplete c s n => mark_optimization_complete fs c s n now
  | .unknownCall name => (fs, .unknownErr ("Unknown function: " ++ name))

/-- One entry of the loop's action log. -/
structure ActionRecord where
  iteration : Nat
  call : ControlCall
  result : FnResult
  deriving DecidableEq

/-- How the control loop of `run_dashboard_optimization` exited:
`COMPLETED` via a successful `mark_optimization_complete`, `IDLE_STOP` via
the `break` on an empty action turn, `EXHAUSTED` via the iteration cap. -/
inductive TermState where
  | COMPLETED
  | IDLE_STOP
  | EXHAUSTED
  deriving Repr, DecidableEq

/-- The state of the loop at exit. -/
structure LoopOutcome where
  fs : CaseFS
  iterations : Nat
  completed : Bool
  term : TermState
  log : List ActionRecord
  deriving DecidableEq

/-- The inner `for tool_call in ...` loop of one iteration: execute each
call in order, record it, and stop early (returning `true`) when a
`mark_optimization_complete` call reports success. -/
def processActions (now nowFmt : String) (iter : Nat) (fs : CaseFS) :
    List ControlCall → CaseFS × List ActionRecord × Bool
  | [] => (fs, [], false)
  | c :: cs =>
    let step := execute_control_function fs now nowFmt c
    let record : ActionRecord := ⟨iter, c, step.2⟩
    if c.functionName = "mark_optimization_complete" ∧ step.2.success = true then
      (step.1, [record], true)
    else
      let rest := processActions now nowFmt iter step.1 cs
      (rest.1, record :: rest.2.1, rest.2.2)

/-- The `while not optimization_complete and iteration_count <
max_iterations` loop; `fuel` is the number of iterations still allowed,
`iter` the iterations already run, and `oracle i` the tool calls returned
by the model on the `(i+1)`-th call. -/
def optLoopGo (oracle : Nat → List ControlCall) (now nowFmt : String) :
    Nat → CaseFS → Nat → List ActionRecord → LoopOutcome
  | 0, fs, iter, log => ⟨fs, iter, false, .EXHAUSTED, log⟩
  | fuel + 1, fs, iter, log =>
    match oracle iter with
    | [] => ⟨fs, iter + 1, false, .IDLE_STOP, log⟩
    | c :: cs =>
      let step := processActions now nowFmt (iter + 1) fs (c :: cs)
      if step.2.2 then ⟨step.1, iter + 1, true, .COMPLETED, log ++ step.2.1⟩
      else if step.2.1.isEmpty then
        ⟨step.1, iter + 1, false, .IDLE_STOP, log ++ step.2.1⟩
      else optLoopGo oracle now nowFmt fuel step.1 (iter + 1) (log ++ step.2.1)

/-- The control loop started with the full iteration budget. -/
def runControlLoop (oracle : Nat → List ControlCall) (now nowFmt : String)
    (maxIter : Nat) (fs : CaseFS) : LoopOutcome :=
  optLoopGo oracle now nowFmt maxIter fs 0 []

/-- `max_iterations = 5  # Reduced for integration workflow`. -/
def max_iterations : Nat := 5

/-- The final report of `run_dashboard_optimization`. -/
structure OptimizationReport where
  success : Bool
  error : Option String
  original_item_count : Nat
  final_item_count : Nat
  items_removed : Int
  duplicates_removed_preprocessing : Nat
  iterations : Nat
  optimization_completed : Bool
  deriving Repr, DecidableEq

/-- `run_dashboard_optimization`: missing-file error, empty-store early
return, dedup pre-pass with conditional write-back, control loop, and the
final re-read of the store for the report. -/
def run_dashboard_optimization (oracle : Nat → List ControlCall)
    (now nowFmt : String) (fs : CaseFS) : CaseFS × OptimizationReport :=
  match fs.items with
  | none => (fs, ⟨false, some "No dashboard items found", 0, 0, 0, 0, 0, false⟩)
  | some items =>
    if items.isEmpty then (fs, ⟨true, none, 0, 0, 0, 0, 0, false⟩)
    else
      let d := prePass items
      let fs1 := if d.2 > 0 then { fs with items := some d.1 } else fs
      let out := runControlLoop oracle now nowFmt max_iterations fs1
      let finalItems := (out.fs.items).getD []
      (out.fs,
        ⟨true, none, d.1.length + d.2, finalItems.length,
          (d.1.length + d.2 : Int) - finalItems.length, d.2,
          out.iterations, out.completed⟩)

/-!  ## Spec-side definitions used for comparison, and concrete inputs  -/

/-- The dedup key exactly as the spec words it: the *tuple*
`(type, title_or_label, stringified_value)` for `metric_card` and
`(type, title_or_label)` otherwise, encoded injectively (the `Bool` tags
the `metric_card` branch, whose third field is otherwise `""`).  To be
compared with the source's `dedupKey`, which joins the fields with `"|"`
into a single string. -/
def specDedupKey (it : DashboardItem) : Bool × String × String × String :=
  if it.component.type = "metric_card" then
    (true, it.component.type, titleOrLabel it.component, it.component.value)
  else
    (false, it.component.type, titleOrLabel it.component, "")

/-- The similarity score exactly as the spec words it: four factor terms
summed, then clamped to `[0, 100]`.  To be compared with the source's
stepwise accumulation in `similarityParts`. -/
def specSimilarityScore (item1 item2 : DashboardItem) : ℚ :=
  let typeTerm : ℚ :=
    if item1.component.type = item2.component.type then 30 else 0
  let w1 := titleWords (titleOrLabel item1.component)
  let w2 := titleWords (titleOrLabel item2.component)
  let titleTerm : ℚ :=
    if w1 ≠ [] ∧ w2 ≠ [] then wordOverlap w1 w2 * 40 else 0
  let sourceTerm : ℚ :=
    if item1.source_file.getD "" = item2.source_file.getD "" ∧
        item1.source_file.getD "" ≠ "" then 20 else 0
  let valueTerm : ℚ :=
    if item1.component.type = "metric_card" ∧
        item2.component.type = "metric_card" ∧
        item1.component.value = item2.component.value ∧
        item1.component.value ≠ "" then 10 else 0
  ratMin (typeTerm + titleTerm + sourceTerm + valueTerm) 100

/-- A minimal component, used for concrete scenarios and witnesses. -/
def mkComponent (type title label value : String) : Component :=
  { type := type, title := title, label := label, value := value, size := none }

/-- A minimal well-formed item, used for concrete scenarios and witnesses. -/
def mkItem (id type title label value : String) : DashboardItem :=
  { id := id
    component := mkComponent type title label value
    source_file := none
    source_item_ids := []
    created_at := "2024-01-01T00:00:00"
    analysis_type := "document_analysis"
    metadata := [("component_type", type)] }

/-- Oracle that immediately signals completion. -/
def demoOracleComplete : Nat → List ControlCall :=
  fun i => if i = 0 then [.markComplete "C1" "done" 0] else []

/-- Oracle that never proposes an action. -/
def demoOracleIdle : Nat → List ControlCall := fun _ => []

/-- Oracle whose first turn is a failing delete and whose second turn
signals completion. -/
def demoOracleFailThenComplete : Nat → List ControlCall :=
  fun i =>
    if i = 0 then [.deleteItem "C1" "zzz" "dup"]
    else if i = 1 then [.markComplete "C1" "done" 0] else []

/-!  # Theorems

## Deduplication pre-pass  -/

/-- The pre-pass output is a sublist of the input: order is preserved and
no item is invented. -/
theorem dedupPass_sublist (items : List DashboardItem) (seen : List String) :
    (dedupPass items seen).1.Sublist items := by
  induction items generalizing seen with
  | nil => simp [dedupPass]
  | cons it rest ih =>
    by_cases h : dedupKey it ∈ seen
    · simpa [dedupPass, h] using (ih seen).cons it
    · simpa [dedupPass, h] using (ih (dedupKey it :: seen)).cons₂ it

/-- Kept items plus removed count equals the input length. -/
theorem dedupPass_length (items : List DashboardItem) (seen : List String) :
    (dedupPass items seen).1.length + (dedupPass items seen).2 = items.length := by
  induction items generalizing seen with
  | nil => simp [dedupPass]
  | cons it rest ih =>
    by_cases h : dedupKey it ∈ seen
    · have := ih seen
      simp only [dedupPass, if_pos h, List.length_cons]
      omega
    · have := ih (dedupKey it :: seen)
      simp only [dedupPass, if_neg h, List.length_cons]
      omega

/-- Per-key characterization of the pre-pass: of the items carrying any
given key, exactly the first survives (none when the key was pre-seen). -/
theorem dedupPass_filter_key (items : List DashboardItem) (seen : List String)
    (k : String) :
    (dedupPass items seen).1.filter (fun x => dedupKey x = k) =
      if k ∈ seen then [] else (items.filter (fun x => dedupKey x = k)).take 1 := by
  induction items generalizing seen with
  | nil => simp [dedupPass]
  | cons it rest ih =>
    by_cases h : dedupKey it ∈ seen
    · simp only [dedupPass, if_pos h]
      rw [ih seen]
      by_cases hk : k ∈ seen
      · simp [hk]
      · have hne : ¬ (dedupKey it = k) := fun he => hk (he ▸ h)
        simp [hk, List.filter_cons, hne]
    · simp only [dedupPass, if_neg h]
      by_cases hk : k = dedupKey it
      · subst hk
        have htail := ih (dedupKey it :: seen)
        rw [if_pos (List.mem_cons_self _ _)] at htail
        simp [List.filter_cons, h, htail]
      · have hne : ¬ (dedupKey it = k) := fun he => hk he.symm
        rw [List.filter_cons]
        simp only [decide_eq_true_eq]
        rw [if_neg hne]
        rw [ih (dedupKey it :: seen)]
        by_cases hks : k ∈ seen
        · simp [hks, hk]
        · simp only [List.mem_cons]
          rw [if_neg (fun hm => hm.elim hk hks)]
          rw [if_neg hks]
          rw [List.filter_cons]
          simp only [decide_eq_true_eq]
          rw [if_neg hne]

/-- The keys of the kept items are pairwise distinct and avoid `seen`. -/
theorem dedupPass_keys_nodup (items : List DashboardItem) (seen : List String) :
    ((dedupPass items seen).1.map dedupKey).Nodup ∧
      ∀ x ∈ (dedupPass items seen).1, dedupKey x ∉ seen := by
  induction items generalizing seen with
  | nil => simp [dedupPass]
  | cons it rest ih =>
    by_cases h : dedupKey it ∈ seen
    · simpa [dedupPass, h] using ih seen
    · have ih2 := ih (dedupKey it :: seen)
      simp only [dedupPass, if_neg h, List.map_cons, List.nodup_cons, List.mem_cons]
      refine ⟨⟨?_, ih2.1⟩, ?_⟩
      · intro hmem
        obtain ⟨a, ha, hk⟩ := List.mem_map.mp hmem
        exact (ih2.2 a ha) (by simp [hk])
      · rintro x (rfl | hx)
        · exact h
        · exact fun hs => (ih2.2 x hx) (by simp [hs])

/-- Items with pairwise-fresh keys pass through the dedup loop untouched. -/
theorem dedupPass_of_keys_fresh (items : List DashboardItem) (seen : List String)
    (hnd : (items.map dedupKey).Nodup)
    (hseen : ∀ x ∈ items, dedupKey x ∉ seen) :
    dedupPass items seen = (items, 0) := by
  induction items generalizing seen with
  | nil => simp [dedupPass]
  | cons it rest ih =>
    have h : dedupKey it ∉ seen := hseen it (by simp)
    simp only [List.map_cons, List.nodup_cons] at hnd
    have hrest : dedupPass rest (dedupKey it :: seen) = (rest, 0) := by
      refine ih (dedupKey it :: seen) hnd.2 ?_
      intro x hx
      simp only [List.mem_cons]
      rintro (he | hs)
      · exact hnd.1 (he ▸ List.mem_map_of_mem dedupKey hx)
      · exact hseen x (List.mem_cons_of_mem it hx) hs
    simp [dedupPass, h, hrest]

/-- Claim C2, counterexample: the pre-pass key is not the spec's tuple
`(type, title-or-label)` but the `"|"`-joined string of those fields, so
two items whose tuple keys differ — type `"a"` with title `"b|c"` versus
type `"a|b"` with title `"c"` — collide, and the pre-pass drops the second
although it is not a later occurrence of any tuple key. -/
theorem C2_tuple_key_counterexample :
    specDedupKey (mkItem "p1" "a" "b|c" "" "") ≠
      specDedupKey (mkItem "p2" "a|b" "c" "" "") ∧
    prePass [mkItem "p1" "a" "b|c" "" "", mkItem "p2" "a|b" "c" "" ""] =
      ([mkItem "p1" "a" "b|c" "" ""], 1) := by
  constructor
  · decide
  · decide

/-- Claim C2 (amended): with the dedup key being the `"|"`-joined string of
the spec's tuple fields, the pre-pass keeps exactly the first occurrence
(in store order, regardless of `created_at`) of each key and drops all
later occurrences: the output is an order-preserving sublist, per key the
survivors are exactly the first store occurrence, and the removed count is
the difference; in particular two `metric_card` items with identical label
and value — the later one even carrying the earlier `created_at` — yield
only the store-earlier item with `duplicates_removed = 1`. -/
theorem C2_prepass_first_wins :
    (∀ items : List DashboardItem,
      (prePass items).1.Sublist items ∧
      (∀ k : String,
        (prePass items).1.filter (fun x => dedupKey x = k) =
          (items.filter (fun x => dedupKey x = k)).take 1) ∧
      (prePass items).2 = items.length - (prePass items).1.length) ∧
    prePass [mkItem "a" "metric_card" "" "Revenue" "$5M",
        { mkItem "b" "metric_card" "" "Revenue" "$5M" with
          created_at := "2023-01-01T00:00:00" }] =
      ([mkItem "a" "metric_card" "" "Revenue" "$5M"], 1) := by
  constructor
  · intro items
    refine ⟨dedupPass_sublist items [], fun k => ?_, ?_⟩
    · simpa using dedupPass_filter_key items [] k
    · have h1 := dedupPass_length items []
      simp only [prePass]
      omega
  · decide

/-- Claim C3: the pre-pass is idempotent — run on its own output it
removes nothing and returns that output unchanged. -/
theorem C3_prepass_idempotent (items : List DashboardItem) :
    prePass (prePass items).1 = ((prePass items).1, 0) := by
  have h := dedupPass_keys_nodup items []
  exact dedupPass_of_keys_fresh _ _ h.1 (fun x _ => by simp)

/-!  ## Delete contract  -/

/-- Splitting an item list by id-match: the two filters partition it. -/
theorem filter_id_partition_length (items : List DashboardItem) (item_id : String) :
    (items.filter (fun it => it.id = item_id)).length +
      (items.filter (fun it => it.id ≠ item_id)).length = items.length := by
  induction items with
  | nil => rfl
  | cons it rest ih =>
    simp only [ne_eq, decide_not] at ih ⊢
    by_cases h : it.id = item_id <;> simp [List.filter_cons, h] <;> omega

/-- With pairwise-distinct ids, a present id is carried by exactly one
item. -/
theorem filter_id_length_one_of_nodup (items : List DashboardItem) (item_id : String)
    (hnd : (items.map DashboardItem.id).Nodup)
    (hmem : item_id ∈ items.map DashboardItem.id) :
    (items.filter (fun it => it.id = item_id)).length = 1 := by
  induction items with
  | nil => simp at hmem
  | cons it rest ih =>
    simp only [List.map_cons, List.nodup_cons, List.mem_cons] at hnd hmem
    by_cases h : it.id = item_id
    · have hrest : rest.filter (fun x => x.id = item_id) = [] := by
        refine List.filter_eq_nil_iff.mpr ?_
        intro x hx
        simp only [decide_eq_true_eq]
        intro hxid
        exact hnd.1 (h ▸ hxid ▸ List.mem_map_of_mem DashboardItem.id hx)
      simp [List.filter_cons, h, hrest]
    · rcases hmem with hm | hm
      · exact absurd hm.symm h
      · simp only [List.filter_cons, decide_eq_true_eq, if_neg h]
        exact ih hnd.2 hm

/-- An absent id matches nothing, so the delete filter is the identity. -/
theorem filter_ne_id_of_not_mem (items : List DashboardItem) (item_id : String)
    (h : item_id ∉ items.map DashboardItem.id) :
    items.filter (fun it => it.id ≠ item_id) = items := by
  refine List.filter_eq_self.mpr ?_
  intro a ha
  simp only [ne_eq, decide_not, Bool.not_eq_eq_eq_not, Bool.not_true,
    decide_eq_false_iff_not]
  exact fun he => h (he ▸ List.mem_map_of_mem DashboardItem.id ha)

/-- Claim C4: with unique ids, deleting a present id succeeds, shrinks the
store by exactly one, removes no item with a different id, and preserves
the order of the rest (the new store is exactly the id-mismatch filter of
the old); deleting an absent id leaves the store unchanged and reports a
not-found failure. -/
theorem C4_delete_contract (fs : CaseFS) (items : List DashboardItem)
    (case_name item_id reason : String)
    (hfs : fs.items = some items)
    (hnd : (items.map DashboardItem.id).Nodup) :
    (item_id ∈ items.map DashboardItem.id →
      delete_dashboard_item fs case_name item_id reason =
        ({ fs with items := some (items.filter (fun it => it.id ≠ item_id)) },
          .ok (.deleted ("Deleted item " ++ item_id ++ ". Reason: " ++ reason)
            (items.filter (fun it => it.id ≠ item_id)).length)) ∧
      (items.filter (fun it => it.id ≠ item_id)).length + 1 = items.length ∧
      (items.filter (fun it => it.id ≠ item_id)).Sublist items) ∧
    (item_id ∉ items.map DashboardItem.id →
      delete_dashboard_item fs case_name item_id reason =
        (fs, .fail ("Item with ID " ++ item_id ++ " not found"))) := by
  constructor
  · intro hmem
    have h1 := filter_id_length_one_of_nodup items item_id hnd hmem
    have h2 := filter_id_partition_length items item_id
    have hlt : (items.filter (fun it => it.id ≠ item_id)).length ≠ items.length := by
      omega
    refine ⟨?_, by omega, List.filter_sublist items⟩
    simp only [delete_dashboard_item, hfs]
    rw [if_neg hlt]
  · intro hmem
    have heq := filter_ne_id_of_not_mem items item_id hmem
    simp [delete_dashboard_item, hfs, heq]
    intro x hx he
    exact hmem (he ▸ List.mem_map_of_mem DashboardItem.id hx)

/-- Concrete instantiation of the delete contract on a two-item store. -/
theorem C4_delete_contract_witness :
    delete_dashboard_item
        ⟨some [mkItem "a" "metric_card" "" "Revenue" "$5M",
          mkItem "b" "text" "Summary" "" ""], none⟩ "C1" "a" "duplicate" =
      (⟨some [mkItem "b" "text" "Summary" "" ""], none⟩,
        .ok (.deleted "Deleted item a. Reason: duplicate" 1)) ∧
    delete_dashboard_item
        ⟨some [mkItem "a" "metric_card" "" "Revenue" "$5M",
          mkItem "b" "text" "Summary" "" ""], none⟩ "C1" "zzz" "duplicate" =
      (⟨some [mkItem "a" "metric_card" "" "Revenue" "$5M",
          mkItem "b" "text" "Summary" "" ""], none⟩,
        .fail "Item with ID zzz not found") := by
  have h := C4_delete_contract
    ⟨some [mkItem "a" "metric_card" "" "Revenue" "$5M",
      mkItem "b" "text" "Summary" "" ""], none⟩
    [mkItem "a" "metric_card" "" "Revenue" "$5M", mkItem "b" "text" "Summary" "" ""]
    "C1" "a" "duplicate" rfl (by decide)
  have h2 := C4_delete_contract
    ⟨some [mkItem "a" "metric_card" "" "Revenue" "$5M",
      mkItem "b" "text" "Summary" "" ""], none⟩
    [mkItem "a" "metric_card" "" "Revenue" "$5M", mkItem "b" "text" "Summary" "" ""]
    "C1" "zzz" "duplicate" rfl (by decide)

  exact ⟨((h.1 (by decide)).1).trans (by decide), (h2.2 (by decide)).trans (by decide)⟩

/-!  ## Update contract  -/

/-- Looking up a freshly set key returns the new value. -/
theorem dictGet_dictSet_self (m : List (String × String)) (k v : String) :
    dictGet (dictSet m k v) k = some v := by
  induction m with
  | nil => simp [dictSet, dictGet]
  | cons p rest ih =>
    by_cases h : p.1 = k
    · simp [dictSet, dictGet, h]
    · simp [dictSet, dictGet, h, ih]

/-- Setting one key leaves every other key's lookup unchanged. -/
theorem dictGet_dictSet_other (m : List (String × String)) (k k2 v : String)
    (h : k2 ≠ k) :
    dictGet (dictSet m k v) k2 = dictGet m k2 := by
  have hk : ¬ (k = k2) := fun he => h he.symm
  induction m with
  | nil => simp [dictSet, dictGet, hk]
  | cons p rest ih =>
    by_cases hp : p.1 = k
    · have hp2 : ¬ (p.1 = k2) := fun he => hk (hp ▸ he)
      simp [dictSet, dictGet, hp, hk, hp2]
    · by_cases hp2 : p.1 = k2 <;> simp [dictSet, dictGet, hp, hp2, hk, h, ih]

/-- When no item matches, the update loop falls through to not-found. -/
theorem updateFirst_not_found (item_id : String) (uc : Component)
    (reason now : String) (items : List DashboardItem)
    (h : ∀ x ∈ items, x.id ≠ item_id) :
    updateFirst item_id uc reason now items = none := by
  induction items with
  | nil => rfl
  | cons it rest ih =>
    simp only [updateFirst]
    rw [if_neg (h it (by simp)), ih (fun x hx => h x (by simp [hx]))]
    rfl

/-- The update loop stamps exactly the first item with the given id and
leaves every other item untouched. -/
theorem updateFirst_found (item_id : String) (uc : Component) (reason now : String)
    (l1 : List DashboardItem) (it : DashboardItem) (l2 : List DashboardItem)
    (h1 : ∀ x ∈ l1, x.id ≠ item_id) (h2 : it.id = item_id) :
    updateFirst item_id uc reason now (l1 ++ it :: l2) =
      some (l1 ++ stampItem it uc reason now :: l2) := by
  induction l1 with
  | nil => simp [updateFirst, h2]
  | cons y ys ih =>
    simp only [List.cons_append, updateFirst, List.append_eq]
    rw [if_neg (h1 y (by simp)), ih (fun x hx => h1 x (by simp [hx]))]
    rfl

/-- Claim C5: updating the (first) item bearing a present id replaces its
component wholesale, stamps `metadata.last_updated` and
`metadata.update_reason`, preserves its `id`, `created_at` and provenance
fields, and leaves every other item unchanged; updating an absent id
leaves the store unchanged and reports a failure. -/
theorem C5_update_contract (fs : CaseFS) (case_name item_id : String)
    (uc : Component) (reason now : String) :
    (∀ l1 it l2, fs.items = some (l1 ++ it :: l2) →
      (∀ x ∈ l1, x.id ≠ item_id) → it.id = item_id →
      update_dashboard_item fs case_name item_id uc reason now =
        ({ fs with items := some (l1 ++ stampItem it uc reason now :: l2) },
          .ok (.updated ("Updated item " ++ item_id ++ ". Reason: " ++ reason) uc)) ∧
      (stampItem it uc reason now).component = uc ∧
      (stampItem it uc reason now).id = it.id ∧
      (stampItem it uc reason now).created_at = it.created_at ∧
      (stampItem it uc reason now).source_file = it.source_file ∧
      (stampItem it uc reason now).source_item_ids = it.source_item_ids ∧
      dictGet (stampItem it uc reason now).metadata "last_updated" = some now ∧
      dictGet (stampItem it uc reason now).metadata "update_reason" = some reason) ∧
    (∀ items, fs.items = some items → item_id ∉ items.map DashboardItem.id →
      update_dashboard_item fs case_name item_id uc reason now =
        (fs, .fail ("Item with ID " ++ item_id ++ " not found"))) := by
  constructor
  · intro l1 it l2 hfs hl1 hit
    have hup := updateFirst_found item_id uc reason now l1 it l2 hl1 hit
    refine ⟨?_, rfl, rfl, rfl, rfl, rfl, ?_, ?_⟩
    · simp [update_dashboard_item, hfs, hup]
    · simp only [stampItem]
      rw [dictGet_dictSet_other _ _ _ _ (by decide), dictGet_dictSet_self]
    · simp only [stampItem]
      rw [dictGet_dictSet_self]
  · intro items hfs hmem
    have hup := updateFirst_not_found item_id uc reason now items
      (fun x hx he => hmem (he ▸ List.mem_map_of_mem DashboardItem.id hx))
    simp [update_dashboard_item, hfs, hup]

/-- Concrete instantiation of the update contract on a two-item store. -/
theorem C5_update_contract_witness :
    update_dashboard_item
        ⟨some [mkItem "a" "text" "Summary" "" "",
          mkItem "b" "metric_card" "" "Revenue" "$5M"], none⟩
        "C1" "b" (mkComponent "metric_card" "Revenue 2025" "" "$6M")
        "corrected_data" "2025-06-01T00:00:00" =
      (⟨some [mkItem "a" "text" "Summary" "" "",
          stampItem (mkItem "b" "metric_card" "" "Revenue" "$5M")
            (mkComponent "metric_card" "Revenue 2025" "" "$6M")
            "corrected_data" "2025-06-01T00:00:00"], none⟩,
        .ok (.updated "Updated item b. Reason: corrected_data"
          (mkComponent "metric_card" "Revenue 2025" "" "$6M"))) := by
  have h := C5_update_contract
    ⟨some [mkItem "a" "text" "Summary" "" "",
      mkItem "b" "metric_card" "" "Revenue" "$5M"], none⟩
    "C1" "b" (mkComponent "metric_card" "Revenue 2025" "" "$6M")
    "corrected_data" "2025-06-01T00:00:00"
  have h2 := h.1 [mkItem "a" "text" "Summary" "" ""]
    (mkItem "b" "metric_card" "" "Revenue" "$5M") [] rfl (by decide) rfl
  exact h2.1.trans (by decide)

/-!  ## Consolidation  -/

/-- Claim C6 (amended): consolidation always succeeds, appends exactly one
new item carrying the given `source_item_ids` verbatim and the id
`case_consolidated_timestamp`, deletes nothing, and — provided the store's
ids were unique and no existing item already bears the generated id — the
new id is unique within the resulting store. -/
theorem C6_consolidation (fs : CaseFS) (case_name : String) (component : Component)
    (source_item_ids : List String) (reason now nowFmt : String) :
    create_consolidated_item fs case_name component source_item_ids reason now nowFmt =
      ({ fs with items := some (fs.items.getD [] ++
          [consolidatedItem case_name component source_item_ids reason now nowFmt]) },
        .ok (.consolidated "Created consolidated item from source items"
          (consolidatedItem case_name component source_item_ids reason now nowFmt).id
          reason)) ∧
    (fs.items.getD [] ++
      [consolidatedItem case_name component source_item_ids reason now nowFmt]).length =
      (fs.items.getD []).length + 1 ∧
    (consolidatedItem case_name component source_item_ids reason now nowFmt).source_item_ids =
      source_item_ids ∧
    (consolidatedItem case_name component source_item_ids reason now nowFmt).id =
      case_name ++ "_consolidated_" ++ nowFmt ∧
    (∀ x ∈ fs.items.getD [], x ∈ fs.items.getD [] ++
      [consolidatedItem case_name component source_item_ids reason now nowFmt]) ∧
    (((fs.items.getD []).map DashboardItem.id).Nodup →
      (consolidatedItem case_name component source_item_ids reason now nowFmt).id ∉
        (fs.items.getD []).map DashboardItem.id →
      (((fs.items.getD [] ++
        [consolidatedItem case_name component source_item_ids reason now nowFmt]).map
          DashboardItem.id).Nodup)) := by
  refine ⟨rfl, by simp, rfl, rfl, fun x hx => List.mem_append_left _ hx, ?_⟩
  intro hnd hnotin
  simp only [List.map_append, List.map_cons, List.map_nil]
  rw [List.nodup_append]
  refine ⟨hnd, List.nodup_singleton _, ?_⟩
  intro a ha hb
  rw [List.mem_singleton] at hb
  exact hnotin (hb ▸ ha)

/-- Claim C6, counterexample: the generated id is
`{case}_consolidated_{timestamp}` with no freshness check, so when the
store already holds an item with exactly that id the call still succeeds
and the store ends up with two items of the same id — the claimed
"fresh id unique within the store" fails. -/
theorem C6_fresh_id_counterexample :
    ((create_consolidated_item
        ⟨some [mkItem "C1_consolidated_20250101_000000" "text" "Old" "" ""], none⟩
        "C1" (mkComponent "text" "Merged" "" "") ["x", "y"] "merged"
        "2025-01-01T00:00:00" "20250101_000000").2).success = true ∧
    ¬ ((((create_consolidated_item
        ⟨some [mkItem "C1_consolidated_20250101_000000" "text" "Old" "" ""], none⟩
        "C1" (mkComponent "text" "Merged" "" "") ["x", "y"] "merged"
        "2025-01-01T00:00:00" "20250101_000000").1.items.getD []).map
          DashboardItem.id).Nodup) := by
  exact ⟨by decide, by decide⟩

/-- Concrete instantiation of the consolidation contract, including the
freshness-conditional uniqueness of the generated id. -/
theorem C6_consolidation_witness :
    create_consolidated_item ⟨some [mkItem "a" "text" "Old" "" ""], none⟩ "C1"
        (mkComponent "text" "Merged" "" "") ["a"] "merged"
        "2025-01-01T00:00:00" "20250101_000000" =
      (⟨some [mkItem "a" "text" "Old" "" "",
          consolidatedItem "C1" (mkComponent "text" "Merged" "" "") ["a"] "merged"
            "2025-01-01T00:00:00" "20250101_000000"], none⟩,
        .ok (.consolidated "Created consolidated item from source items"
          "C1_consolidated_20250101_000000" "merged")) ∧
    (([mkItem "a" "text" "Old" "" "",
        consolidatedItem "C1" (mkComponent "text" "Merged" "" "") ["a"] "merged"
          "2025-01-01T00:00:00" "20250101_000000"].map DashboardItem.id).Nodup) := by
  have h := C6_consolidation ⟨some [mkItem "a" "text" "Old" "" ""], none⟩ "C1"
    (mkComponent "text" "Merged" "" "") ["a"] "merged"
    "2025-01-01T00:00:00" "20250101_000000"
  exact ⟨h.1.trans (by decide), h.2.2.2.2.2 (by decide) (by decide)⟩

/-!  ## Similarity scoring  -/

/-- The word intersection is never larger than the word union. -/
theorem interCard_le_unionCard (a b : List String) :
    interCard a b ≤ unionCard a b := by
  have h1 : interCard a b ≤ a.length := List.length_filter_le _ _
  have h2 : a.length ≤ unionCard a b := by
    simp only [unionCard, List.length_append]
    omega
  omega

/-- The Jaccard overlap is non-negative. -/
theorem wordOverlap_nonneg (a b : List String) : 0 ≤ wordOverlap a b := by
  unfold wordOverlap
  positivity

/-- The Jaccard overlap never exceeds one. -/
theorem wordOverlap_le_one (a b : List String) : wordOverlap a b ≤ 1 := by
  unfold wordOverlap
  rcases Nat.eq_zero_or_pos (unionCard a b) with h | h
  · have h2 : interCard a b = 0 := Nat.le_zero.mp (h ▸ interCard_le_unionCard a b)
    norm_num [h, h2]
  · rw [div_le_one (by exact_mod_cast h)]
    exact_mod_cast interCard_le_unionCard a b

/-- The raw similarity score lies in `[0, 100]` for every item pair. -/
theorem similarityParts_bounds (item1 item2 : DashboardItem) :
    0 ≤ (similarityParts item1 item2).1 ∧ (similarityParts item1 item2).1 ≤ 100 := by
  have h0 := wordOverlap_nonneg (titleWords (titleOrLabel item1.component))
    (titleWords (titleOrLabel item2.component))
  have h1 := wordOverlap_le_one (titleWords (titleOrLabel item1.component))
    (titleWords (titleOrLabel item2.component))
  constructor <;>
    · simp only [similarityParts]
      split_ifs <;> simp <;> linarith

/-- The stepwise accumulation telescopes to the four-factor sum. -/
theorem similarityParts_raw_formula (item1 item2 : DashboardItem) :
    (similarityParts item1 item2).1 =
      (if item1.component.type = item2.component.type then (30 : ℚ) else 0) +
      (if titleWords (titleOrLabel item1.component) ≠ [] ∧
          titleWords (titleOrLabel item2.component) ≠ [] then
        wordOverlap (titleWords (titleOrLabel item1.component))
          (titleWords (titleOrLabel item2.component)) * 40 else 0) +
      (if item1.source_file.getD "" = item2.source_file.getD "" ∧
          item1.source_file.getD "" ≠ "" then 20 else 0) +
      (if item1.component.type = "metric_card" ∧
          item2.component.type = "metric_card" ∧
          item1.component.value = item2.component.value ∧
          item1.component.value ≠ "" then 10 else 0) := by
  simp only [similarityParts]
  split_ifs <;> simp

/-- The source's stepwise accumulation equals the spec's clamped four-term
sum. -/
theorem similarityParts_eq_spec (item1 item2 : DashboardItem) :
    ratMin (similarityParts item1 item2).1 100 = specSimilarityScore item1 item2 := by
  rw [similarityParts_raw_formula]
  rfl

/-- Items matching on no factor score zero. -/
theorem similarityParts_disjoint_zero (item1 item2 : DashboardItem)
    (hT : ¬ item1.component.type = item2.component.type)
    (hJ : wordOverlap (titleWords (titleOrLabel item1.component))
      (titleWords (titleOrLabel item2.component)) = 0)
    (hS : ¬ (item1.source_file.getD "" = item2.source_file.getD "" ∧
      item1.source_file.getD "" ≠ ""))
    (hV : ¬ (item1.component.type = "metric_card" ∧
      item2.component.type = "metric_card" ∧
      item1.component.value = item2.component.value ∧
      item1.component.value ≠ "")) :
    (similarityParts item1 item2).1 = 0 := by
  by_cases c2 : titleWords (titleOrLabel item1.component) ≠ [] ∧
      titleWords (titleOrLabel item2.component) ≠ [] <;>
    simp [similarityParts, hT, c2, hS, hV, hJ]

/-- The title-overlap factor is reported exactly when the overlap exceeds
`0.3` (given both token sets are non-empty). -/
theorem similarityParts_title_factor (item1 item2 : DashboardItem)
    (hc2 : titleWords (titleOrLabel item1.component) ≠ [] ∧
      titleWords (titleOrLabel item2.component) ≠ []) :
    ("Title word overlap" ∈ (similarityParts item1 item2).2 ↔
      wordOverlap (titleWords (titleOrLabel item1.component))
        (titleWords (titleOrLabel item2.component)) > 3/10) := by
  simp only [similarityParts]
  split_ifs <;> simp_all

/-- Claim C7: for items found in the store, the handler reports the score
`min raw 100` with `raw` the stepwise source computation; the raw score
equals the spec's four-factor sum, lies in `[0, 100]` (so the clamp is
inert), drives the merge / keep_separate / review recommendation at the
70 / 30 thresholds, vanishes when no factor applies, and the title factor
is reported exactly when the overlap exceeds 0.3. -/
theorem C7_similarity_contract (fs : CaseFS) (items : List DashboardItem)
    (case_name id1 id2 : String) (item1 item2 : DashboardItem)
    (hfs : fs.items = some items)
    (h1 : findItem items id1 = some item1)
    (h2 : findItem items id2 = some item2) :
    analyze_item_similarity fs case_name id1 id2 =
      (fs, .ok (.similarity (ratMin (similarityParts item1 item2).1 100)
        (similarityParts item1 item2).2
        (recommend (similarityParts item1 item2).1)
        (itemSummary id1 item1.component) (itemSummary id2 item2.component))) ∧
    0 ≤ (similarityParts item1 item2).1 ∧
    (similarityParts item1 item2).1 ≤ 100 ∧
    ratMin (similarityParts item1 item2).1 100 = (similarityParts item1 item2).1 ∧
    ratMin (similarityParts item1 item2).1 100 = specSimilarityScore item1 item2 ∧
    recommend (similarityParts item1 item2).1 =
      (if (similarityParts item1 item2).1 > 70 then "merge"
        else if (similarityParts item1 item2).1 < 30 then "keep_separate"
        else "review") ∧
    (¬ item1.component.type = item2.component.type →
      wordOverlap (titleWords (titleOrLabel item1.component))
        (titleWords (titleOrLabel item2.component)) = 0 →
      ¬ (item1.source_file.getD "" = item2.source_file.getD "" ∧
        item1.source_file.getD "" ≠ "") →
      ¬ (item1.component.type = "metric_card" ∧
        item2.component.type = "metric_card" ∧
        item1.component.value = item2.component.value ∧
        item1.component.value ≠ "") →
      (similarityParts item1 item2).1 = 0) ∧
    ((titleWords (titleOrLabel item1.component) ≠ [] ∧
        titleWords (titleOrLabel item2.component) ≠ []) →
      ("Title word overlap" ∈ (similarityParts item1 item2).2 ↔
        wordOverlap (titleWords (titleOrLabel item1.component))
          (titleWords (titleOrLabel item2.component)) > 3/10)) := by
  obtain ⟨hb0, hb1⟩ := similarityParts_bounds item1 item2
  refine ⟨?_, hb0, hb1, by simp [ratMin, hb1], similarityParts_eq_spec item1 item2,
    rfl, similarityParts_disjoint_zero item1 item2,
    similarityParts_title_factor item1 item2⟩
  simp [analyze_item_similarity, hfs, h1, h2]

/-- Concrete instantiation: two metric cards with the same label and value
score 30 + 40 + 10 = 80 and are recommended for merging. -/
theorem C7_similarity_contract_witness :
    analyze_item_similarity
        ⟨some [mkItem "x" "metric_card" "" "Revenue" "$5M",
          mkItem "y" "metric_card" "" "Revenue" "$5M"], none⟩ "C1" "x" "y" =
      (⟨some [mkItem "x" "metric_card" "" "Revenue" "$5M",
          mkItem "y" "metric_card" "" "Revenue" "$5M"], none⟩,
        .ok (.similarity 80
          ["Same component type", "Title word overlap", "Same metric value"]
          "merge" ("x", "metric_card", "Revenue") ("y", "metric_card", "Revenue"))) := by
  have h := C7_similarity_contract
    ⟨some [mkItem "x" "metric_card" "" "Revenue" "$5M",
      mkItem "y" "metric_card" "" "Revenue" "$5M"], none⟩
    [mkItem "x" "metric_card" "" "Revenue" "$5M",
      mkItem "y" "metric_card" "" "Revenue" "$5M"]
    "C1" "x" "y" (mkItem "x" "metric_card" "" "Revenue" "$5M")
    (mkItem "y" "metric_card" "" "Revenue" "$5M") rfl (by decide) (by decide)
  have hw : titleWords (titleOrLabel
      (mkItem "x" "metric_card" "" "Revenue" "$5M").component) = ["revenue"] := rfl
  have hw2 : titleWords (titleOrLabel
      (mkItem "y" "metric_card" "" "Revenue" "$5M").component) = ["revenue"] := rfl
  have hov : wordOverlap ["revenue"] ["revenue"] = 1 := by
    have hi : interCard ["revenue"] ["revenue"] = 1 := rfl
    have hu : unionCard ["revenue"] ["revenue"] = 1 := rfl
    rw [wordOverlap, hi, hu]
    norm_num
  have hv : ("$5M" : String) ≠ "" := by decide
  have hr : ("Revenue" : String) ≠ "" := by decide
  have hw3 : titleWords (titleOrLabel
      (⟨"metric_card", "", "Revenue", "$5M", none⟩ : Component)) = ["revenue"] := rfl
  have hS : (similarityParts (mkItem "x" "metric_card" "" "Revenue" "$5M")
      (mkItem "y" "metric_card" "" "Revenue" "$5M")).1 = 80 := by
    rw [similarityParts_raw_formula, hw, hw2, hov]
    norm_num [mkItem, mkComponent, hv]
  have hF : (similarityParts (mkItem "x" "metric_card" "" "Revenue" "$5M")
      (mkItem "y" "metric_card" "" "Revenue" "$5M")).2 =
      ["Same component type", "Title word overlap", "Same metric value"] := by
    simp only [similarityParts, hw, hw2, hw3, hov, mkItem, mkComponent]
    norm_num [hv, hw3, hov]
  rw [h.1, hS, hF]
  norm_num [ratMin, recommend, itemSummary, mkItem, mkComponent, hv, hr]

/-- Claim C9: when several items share the deleted id, a single delete
removes every one of them — the store can shrink by two or more. -/
theorem C9_delete_removes_all_matching (fs : CaseFS) (items : List DashboardItem)
    (case_name item_id reason : String)
    (hfs : fs.items = some items)
    (hdup : 2 ≤ (items.filter (fun it => it.id = item_id)).length) :
    delete_dashboard_item fs case_name item_id reason =
      ({ fs with items := some (items.filter (fun it => it.id ≠ item_id)) },
        .ok (.deleted ("Deleted item " ++ item_id ++ ". Reason: " ++ reason)
          (items.filter (fun it => it.id ≠ item_id)).length)) ∧
    (items.filter (fun it => it.id ≠ item_id)).length + 2 ≤ items.length := by
  have h2 := filter_id_partition_length items item_id
  have hlt : (items.filter (fun it => it.id ≠ item_id)).length ≠ items.length := by
    omega
  constructor
  · simp only [delete_dashboard_item, hfs]
    rw [if_neg hlt]
  · omega

/-!  ## Control loop  -/

/-- Each loop entry runs at most `fuel` more iterations. -/
theorem optLoopGo_iterations_le (oracle : Nat → List ControlCall)
    (now nowFmt : String) (fuel : Nat) (fs : CaseFS) (iter : Nat)
    (log : List ActionRecord) :
    (optLoopGo oracle now nowFmt fuel fs iter log).iterations ≤ iter + fuel := by
  induction fuel generalizing fs iter log with
  | zero => simp [optLoopGo]
  | succ n ih =>
    simp only [optLoopGo]
    cases hoc : oracle iter with
    | nil => simp
    | cons c cs =>
      simp only []
      split_ifs with h1 h2
      · simp
      · simp
      · exact le_trans (ih _ _ _) (by omega)

/-- Claim C1: the control loop makes at most `max_iterations + 1` oracle
calls (in fact at most `max_iterations`, one per iteration); an oracle
whose first response is a successful `mark_optimization_complete` ends the
run after exactly one iteration in the `COMPLETED` state; an oracle that
always returns zero actions ends it after exactly one iteration via
`IDLE_STOP`. -/
theorem C1_loop_termination (oracle : Nat → List ControlCall)
    (now nowFmt : String) (maxIter : Nat) (fs : CaseFS) :
    (runControlLoop oracle now nowFmt maxIter fs).iterations ≤ maxIter + 1 ∧
    (1 ≤ maxIter → ∀ c s n rest, oracle 0 = .markComplete c s n :: rest →
      (runControlLoop oracle now nowFmt maxIter fs).iterations = 1 ∧
      (runControlLoop oracle now nowFmt maxIter fs).completed = true ∧
      (runControlLoop oracle now nowFmt maxIter fs).term = .COMPLETED) ∧
    (1 ≤ maxIter → (∀ i, oracle i = []) →
      (runControlLoop oracle now nowFmt maxIter fs).iterations = 1 ∧
      (runControlLoop oracle now nowFmt maxIter fs).completed = false ∧
      (runControlLoop oracle now nowFmt maxIter fs).term = .IDLE_STOP) := by
  refine ⟨?_, ?_, ?_⟩
  · have h := optLoopGo_iterations_le oracle now nowFmt maxIter fs 0 []
    simp only [runControlLoop]
    omega
  · intro hm c s n rest hor
    obtain ⟨m, rfl⟩ : ∃ m, maxIter = m + 1 := ⟨maxIter - 1, by omega⟩
    refine ⟨?_, ?_, ?_⟩ <;>
      simp [runControlLoop, optLoopGo, hor, processActions,
        execute_control_function, mark_optimization_complete,
        ControlCall.functionName, FnResult.success]
  · intro hm hor
    obtain ⟨m, rfl⟩ : ∃ m, maxIter = m + 1 := ⟨maxIter - 1, by omega⟩
    refine ⟨?_, ?_, ?_⟩ <;> simp [runControlLoop, optLoopGo, hor 0]

/-- Concrete loop runs: complete-immediately and always-idle oracles both
stop after one iteration, in `COMPLETED` and `IDLE_STOP` respectively. -/
theorem C1_loop_termination_witness :
    (runControlLoop demoOracleComplete "t1" "t2" 5 ⟨some [], none⟩).iterations = 1 ∧
    (runControlLoop demoOracleComplete "t1" "t2" 5 ⟨some [], none⟩).term = .COMPLETED ∧
    (runControlLoop demoOracleIdle "t1" "t2" 5 ⟨some [], none⟩).iterations = 1 ∧
    (runControlLoop demoOracleIdle "t1" "t2" 5 ⟨some [], none⟩).term = .IDLE_STOP := by
  have h1 := (C1_loop_termination demoOracleComplete "t1" "t2" 5 ⟨some [], none⟩).2.1
    (by omega) "C1" "done" 0 [] rfl
  have h2 := (C1_loop_termination demoOracleIdle "t1" "t2" 5 ⟨some [], none⟩).2.2
    (by omega) (fun i => rfl)
  exact ⟨h1.1, h1.2.2, h2.1, h2.2.2⟩

/-- Claim C8: the dispatcher is a total function — an unknown action name
yields the structured bare-error dict and no state change; a known action
whose precondition fails (here: delete of an absent id) yields a
structured failure result and no state change; and the loop appends a
failing action's record to its log and keeps running — completing
normally on the next iteration. -/
theorem C8_dispatch_error_handling (fs : CaseFS) (now nowFmt : String) :
    (∀ name, execute_control_function fs now nowFmt (.unknownCall name) =
      (fs, .unknownErr ("Unknown function: " ++ name))) ∧
    (∀ items case_name item_id reason, fs.items = some items →
      item_id ∉ items.map DashboardItem.id →
      execute_control_function fs now nowFmt (.deleteItem case_name item_id reason) =
        (fs, .fail ("Item with ID " ++ item_id ++ " not found"))) ∧
    (∀ oracle maxIter failCall c s n,
      oracle 0 = [failCall] →
      (execute_control_function fs now nowFmt failCall).2.success = false →
      oracle 1 = [ControlCall.markComplete c s n] →
      2 ≤ maxIter →
      (runControlLoop oracle now nowFmt maxIter fs).term = .COMPLETED ∧
      (runControlLoop oracle now nowFmt maxIter fs).iterations = 2 ∧
      (runControlLoop oracle now nowFmt maxIter fs).log =
        [⟨1, failCall, (execute_control_function fs now nowFmt failCall).2⟩,
          ⟨2, .markComplete c s n,
            .ok (.completed ("Optimization completed for case " ++ c) s n true)⟩]) := by
  refine ⟨fun name => rfl, ?_, ?_⟩
  · intro items case_name item_id reason hfs hmem
    have heq := filter_ne_id_of_not_mem items item_id hmem
    simp [execute_control_function, delete_dashboard_item, hfs, heq]
    intro x hx he
    exact hmem (he ▸ List.mem_map_of_mem DashboardItem.id hx)
  · intro oracle maxIter failCall c s n hor0 hfail hor1 hm
    obtain ⟨m, rfl⟩ : ∃ m, maxIter = m + 2 := ⟨maxIter - 2, by omega⟩
    have hcond : ¬ (failCall.functionName = "mark_optimization_complete" ∧
        (execute_control_function fs now nowFmt failCall).2.success = true) := by
      rintro ⟨-, hs⟩
      rw [hfail] at hs
      exact Bool.false_ne_true hs
    have hshape : m + 2 = (m + 1) + 1 := rfl
    refine ⟨?_, ?_, ?_⟩ <;>
      · simp only [runControlLoop, hshape, optLoopGo, hor0, hor1, processActions,
          if_neg hcond]
        simp [optLoopGo, hor1, processActions, execute_control_function,
          mark_optimization_complete, ControlCall.functionName, FnResult.success]

/-- Concrete loop: a failing delete in iteration 1 is logged and the run
still completes in iteration 2. -/
theorem C8_dispatch_error_handling_witness :
    execute_control_function ⟨some [], none⟩ "t1" "t2" (.unknownCall "frobnicate") =
      (⟨some [], none⟩, .unknownErr "Unknown function: frobnicate") ∧
    execute_control_function ⟨some [], none⟩ "t1" "t2" (.deleteItem "C1" "zzz" "dup") =
      (⟨some [], none⟩, .fail "Item with ID zzz not found") ∧
    (runControlLoop demoOracleFailThenComplete "t1" "t2" 5 ⟨some [], none⟩).term =
      .COMPLETED ∧
    (runControlLoop demoOracleFailThenComplete "t1" "t2" 5 ⟨some [], none⟩).iterations = 2 := by
  have h := C8_dispatch_error_handling ⟨some [], none⟩ "t1" "t2"
  have h3 := h.2.2 demoOracleFailThenComplete 5 (.deleteItem "C1" "zzz" "dup")
    "C1" "done" 0 rfl (by decide) rfl (by omega)
  exact ⟨h.1 "frobnicate", h.2.1 [] "C1" "zzz" "dup" rfl (by decide), h3.1, h3.2.1⟩

/-!  ## Read-only handlers  -/

/-- Claim C10: `list_dashboard_items`, `analyze_item_similarity` and
`get_item_statistics` leave the whole per-case state untouched, and
`mark_optimization_complete` writes only the optimization log, leaving the
item store exactly as it was. -/
theorem C10_readonly_frame (fs : CaseFS)
    (case_name id1 id2 summary now : String) (n : Int) :
    (list_dashboard_items fs case_name).1 = fs ∧
    (analyze_item_similarity fs case_name id1 id2).1 = fs ∧
    (get_item_statistics fs case_name).1 = fs ∧
    (mark_optimization_complete fs case_name summary n now).1 =
      { fs with optLog := some ⟨case_name, now, summary, n, true⟩ } ∧
    (mark_optimization_complete fs case_name summary n now).1.items = fs.items := by
  refine ⟨?_, ?_, ?_, rfl, rfl⟩
  · cases h : fs.items <;> simp [list_dashboard_items, h]
  · cases h : fs.items with
    | none => simp [analyze_item_similarity, h]
    | some items =>
      cases h1 : findItem items id1 <;> cases h2 : findItem items id2 <;>
        simp [analyze_item_similarity, h, h1, h2]
  · cases h : fs.items <;> simp [get_item_statistics, h]

/-- Concrete duplicate-id store: one delete removes both copies. -/
theorem C9_delete_removes_all_matching_witness :
    delete_dashboard_item
        ⟨some [mkItem "a" "metric_card" "" "Revenue" "$5M",
          mkItem "a" "text" "Summary" "" "",
          mkItem "b" "text" "Other" "" ""], none⟩ "C1" "a" "duplicate" =
      (⟨some [mkItem "b" "text" "Other" "" ""], none⟩,
        .ok (.deleted "Deleted item a. Reason: duplicate" 1)) := by
  have h := C9_delete_removes_all_matching
    ⟨some [mkItem "a" "metric_card" "" "Revenue" "$5M",
      mkItem "a" "text" "Summary" "" "", mkItem "b" "text" "Other" "" ""], none⟩
    [mkItem "a" "metric_card" "" "Revenue" "$5M",
      mkItem "a" "text" "Summary" "" "", mkItem "b" "text" "Other" "" ""]
    "C1" "a" "duplicate" rfl (by decide)
  exact h.1.trans (by decide)
